import Mathlib

/-!
Verification of the sanctions-list ingestion and fuzzy entity-matching engine
of the BI-Risk repository (OFAC / EU / OpenSanctions clients plus the
risk-severity derivation in `app.py`).

The Python sources are shallowly embedded: strings are Lean `String`
(a list of characters), Python floats arising from the scoring pipeline are
modelled as `ℚ` (every value produced by the scorers is rational: 0, 1, 9/10,
or a Jaccard ratio), wall-clock times are `Int` seconds, and network I/O is
an explicit environment value describing what each fetch attempt would
return.  Python's `re` character class `\w` is modelled with its ASCII
meaning `[A-Za-z0-9_]`.
-/

set_option maxRecDepth 8192

namespace BIRisk

/-! ## Python string primitives

Models of the Python string operations used by the clients:
`str.strip`, `str.lower`, `str.upper`, `re.sub(r"[^\w\s]", " ", s)`,
`re.sub(r"\s+", " ", s)`, `str.split()` (whitespace split, dropping empty
fields), `" ".join(words)`, and the substring test `a in b`. -/

/-- A `\w` character: `[A-Za-z0-9_]` (ASCII reading of Python's `\w`). -/
def isWordChar (c : Char) : Bool :=
  c.isAlphanum || c == '_'

/-- Python `s.strip()`: remove leading and trailing whitespace. -/
def pyStrip (s : String) : String :=
  ⟨((s.data.dropWhile Char.isWhitespace).reverse.dropWhile Char.isWhitespace).reverse⟩

/-- Python `s.lower()` (ASCII case folding, as `Char.toLower`). -/
def pyLower (s : String) : String :=
  ⟨s.data.map Char.toLower⟩

/-- Python `s.upper()` (ASCII case folding, as `Char.toUpper`). -/
def pyUpper (s : String) : String :=
  ⟨s.data.map Char.toUpper⟩

/-- Python `re.sub(r"[^\w\s]", " ", s)`: every character that is neither a
word character nor whitespace becomes a single space. -/
def subPunct (s : String) : String :=
  ⟨s.data.map (fun c => if isWordChar c || c.isWhitespace then c else ' ')⟩

/-- Helper for `re.sub(r"\s+", " ", s)`: the flag records whether the
previous character was whitespace (so a run collapses to one space). -/
def collapseWsAux : Bool → List Char → List Char
  | _, [] => []
  | prevWs, c :: cs =>
    if c.isWhitespace then
      if prevWs then collapseWsAux true cs
      else ' ' :: collapseWsAux true cs
    else c :: collapseWsAux false cs

/-- Python `re.sub(r"\s+", " ", s)`: collapse every whitespace run to a
single space (ends of the string are not stripped). -/
def collapseWs (s : String) : String :=
  ⟨collapseWsAux false s.data⟩

/-- Helper for `s.split()`: accumulate the current (reversed) word. -/
def pyWordsAux : List Char → List Char → List String
  | [], cur => if cur = [] then [] else [⟨cur.reverse⟩]
  | c :: cs, cur =>
    if c.isWhitespace then
      if cur = [] then pyWordsAux cs []
      else ⟨cur.reverse⟩ :: pyWordsAux cs []
    else pyWordsAux cs (c :: cur)

/-- Python `s.split()` with no argument: split on whitespace runs and drop
empty fields. -/
def pyWords (s : String) : List String :=
  pyWordsAux s.data []

/-- Python `" ".join(words)`. -/
def joinWords : List String → String
  | [] => ""
  | [w] => w
  | w :: ws => w ++ " " ++ joinWords ws

/-- Python `sub in s`: substring containment (`sub` occurs contiguously in
`s`, written with the list-infix relation). -/
def pyIn (sub s : String) : Bool :=
  decide (sub.data <:+: s.data)

/-- Python `round(x, 2)` on the scorer's values.  Ties (exact multiples of
1/200) never occur in any statement proved below, so the tie-breaking
direction is immaterial. -/
def round2 (q : ℚ) : ℚ :=
  (round (q * 100) : ℤ) / 100

/-! ## Name normalizers

`OFACClient._clean_company_name` (ofac.py lines 326-343),
`EUSanctionsClient._clean_company_name` (eu_sanctions.py lines 310-322) and
`OpenSanctionsClient._clean_company_name` (opensanctions.py lines 134-156). -/

/-- OFAC's suffix set, in the order Python's
`sorted(suffixes, key=len, reverse=True)` visits it: strictly decreasing
length; the order among equal-length suffixes is immaterial because a string
can end with at most one suffix of a given length. -/
def ofacSuffixList : List String :=
  [" CORPORATION",
   " LIMITED", " COMPANY",
   " CORP", " GMBH", " PJSC", " OJSC",
   " INC", " LLC", " LTD", " PLC", " OOO", " OAO", " PAO", " ZAO", " JSC",
   " CO", " SA", " AG", " BV"]

/-- One iteration of OFAC's suffix loop:
`if s.endswith(suf): s = s[:-len(suf)].strip()`. -/
def stripOneSuffix (s : String) (suf : String) : String :=
  if suf.data.isSuffixOf s.data then
    pyStrip ⟨s.data.take (s.data.length - suf.data.length)⟩
  else s

/-- `OFACClient._clean_company_name`: uppercase, strip, punctuation to
spaces, try each suffix once (longest first), collapse whitespace runs. -/
def ofacCleanCompanyName (name : String) : String :=
  collapseWs (ofacSuffixList.foldl stripOneSuffix (subPunct (pyStrip (pyUpper name))))

/-- EU client's lowercase suffix word set (eu_sanctions.py lines 311-316). -/
def euSuffixes : List String :=
  ["inc", "llc", "ltd", "limited", "corp", "corporation",
   "company", "co", "plc", "sa", "ag", "gmbh", "bv",
   "nv", "spa", "srl", "sarl", "ab", "as", "oy", "se",
   "pte", "pt", "kft", "oyj", "aps", "kk", "kabushiki", "kaisha"]

/-- OpenSanctions client's suffix list (opensanctions.py lines 139-143). -/
def osSuffixes : List String :=
  ["inc", "llc", "ltd", "limited", "corp", "corporation",
   "company", "co", "plc", "sa", "ag", "gmbh", "bv",
   "nv", "spa", "srl", "sarl", "ab", "as", "oy"]

/-- Python `while words and words[-1] in suffixes: words.pop()`. -/
def stripTrailingSuffixWords (sufs : List String) (ws : List String) : List String :=
  ((ws.reverse).dropWhile (fun w => sufs.contains w)).reverse

/-- `EUSanctionsClient._clean_company_name`: lowercase, strip, punctuation to
spaces, split (`[w for w in s.split() if w]`), pop trailing suffix words,
rejoin. -/
def euCleanCompanyName (name : String) : String :=
  joinWords (stripTrailingSuffixWords euSuffixes
    ((pyWords (subPunct (pyStrip (pyLower name)))).filter (fun w => w ≠ "")))

/-- `OpenSanctionsClient._clean_company_name`: same shape as the EU variant
(`words = name_clean.split()`, no redundant filter) with its own suffix
list. -/
def osCleanCompanyName (name : String) : String :=
  joinWords (stripTrailingSuffixWords osSuffixes
    (pyWords (subPunct (pyStrip (pyLower name)))))

/-- The common shape of the EU and OpenSanctions normalizers, parametrized
by the suffix word set (the EU variant's extra `if w` filter is a no-op,
proved separately). -/
def lowerNormalize (sufs : List String) (name : String) : String :=
  joinWords (stripTrailingSuffixWords sufs
    (pyWords (subPunct (pyStrip (pyLower name)))))

/-! ## Similarity scorers

`OFACClient._calculate_match_score` (ofac.py lines 345-360) and
`EUSanctionsClient._calculate_match_score` (eu_sanctions.py lines 324-336):
identical tier logic over the respective normalizer. -/

/-- The shared tier chain of `_calculate_match_score`, applied to the
already-normalized operands `s` and `f` (`sw`/`fw` are the Python word sets
`set(s.split())` / `set(f.split())`). -/
def tierScore (s f : String) : ℚ :=
  if s = "" ∨ f = "" then 0
  else if s = f then 1
  else if pyIn s f || pyIn f s then 9 / 10
  else if (pyWords s).toFinset = ∅ ∨ (pyWords f).toFinset = ∅ then 0
  else (((pyWords s).toFinset ∩ (pyWords f).toFinset).card : ℚ) /
    (((pyWords s).toFinset ∪ (pyWords f).toFinset).card : ℚ)

/-- `OFACClient._calculate_match_score`: the tier chain over the OFAC
normalizer (its body normalizes both arguments itself). -/
def ofacCalculateMatchScore (search_name found_name : String) : ℚ :=
  tierScore (ofacCleanCompanyName search_name) (ofacCleanCompanyName found_name)

/-- `EUSanctionsClient._calculate_match_score`: the identical tier chain
over the EU normalizer. -/
def euCalculateMatchScore (search_name found_name : String) : ℚ :=
  tierScore (euCleanCompanyName search_name) (euCleanCompanyName found_name)

/-! ## Data model

Entity records as the parsers build them, match records as `search_company`
builds them, and the uniform response envelope. -/

/-- An identifier record `{"type": ..., "value": ...}` (shared shape between
the OFAC `ids` entries and the EU/OpenSanctions `identifiers` entries). -/
structure IdRecord where
  type : String
  value : String
  deriving DecidableEq, Repr

/-- An OFAC address record (ofac.py lines 256-263). -/
structure OfacAddress where
  address1 : String
  address2 : String
  city : String
  state : String
  postal_code : String
  country : String
  deriving DecidableEq, Repr

/-- OFAC vessel details (ofac.py lines 161-166). -/
structure OfacVessel where
  call_sign : String
  vessel_type : String
  flag : String
  deriving DecidableEq, Repr

/-- A normalized OFAC SDN record as `_load_sdn_entities` /
`_parse_sdn_entry` build it (ofac.py lines 149-166). -/
structure OfacEntity where
  name : String
  type : String
  programs : List String
  remarks : String
  publishDate : String
  sdn_number : String
  aliases : List String
  addresses : List OfacAddress
  ids : List IdRecord
  vessel_details : Option OfacVessel
  deriving DecidableEq, Repr

/-- One OFAC match entry of `search_company` (ofac.py lines 74-87). -/
structure OfacMatch where
  name : String
  match_score : ℚ
  type : String
  programs : List String
  aliases : List String
  addresses : List OfacAddress
  ids : List IdRecord
  remarks : String
  publishDate : String
  sdn_number : String
  source : String
  vessel_details : Option OfacVessel
  deriving DecidableEq, Repr

/-- An EU address record (eu_sanctions.py lines 288-294). -/
structure EUAddress where
  street : String
  city : String
  zip_code : String
  country : String
  full_address : String
  deriving DecidableEq, Repr

/-- A normalized EU Consolidated List record as `_parse_subject` /
`_parse_csv_entities` build it (eu_sanctions.py lines 199-210, 241-252). -/
structure EUEntity where
  name : String
  eu_reference_number : String
  entity_type : String
  aliases : List String
  addresses : List EUAddress
  listing_date : String
  programme : String
  legal_basis : String
  identifiers : List IdRecord
  remark : String
  deriving DecidableEq, Repr

/-- One EU match entry of `search_company` (eu_sanctions.py lines 70-83). -/
structure EUMatch where
  name : String
  match_score : ℚ
  eu_reference_number : String
  entity_type : String
  aliases : List String
  addresses : List EUAddress
  listing_date : String
  programme : String
  legal_basis : String
  identifiers : List IdRecord
  source : String
  remarks : String
  deriving DecidableEq, Repr

/-- The uniform `SearchResult` envelope returned by `search_company` in all
three clients.  The Python success dict carries no `error` key, modelled as
`error = none`; `search_timestamp` is the call time in seconds. -/
structure SearchResult (μ : Type) where
  searched_name : String
  status : String
  «matches» : List μ
  match_count : Nat
  search_timestamp : Int
  api_cost : ℚ
  error : Option String
  deriving DecidableEq, Repr

/-- The success envelope (`status` from the truthiness of `matches`):
`"found_matches" if matches else "clear"`. -/
def mkOkEnvelope {μ : Type} (name : String) (ts : Int) (ms : List μ) :
    SearchResult μ :=
  { searched_name := name
    status := if ms.isEmpty then "clear" else "found_matches"
    «matches» := ms
    match_count := ms.length
    search_timestamp := ts
    api_cost := 0
    error := none }

/-- The `except Exception` envelope: `status: "error"` with the exception's
`str(e)` text. -/
def mkErrEnvelope {μ : Type} (name : String) (ts : Int) (msg : String) :
    SearchResult μ :=
  { searched_name := name
    status := "error"
    «matches» := []
    match_count := 0
    search_timestamp := ts
    api_cost := 0
    error := some msg }

/-! ## OFAC CSV parsing

`OFACClient._load_sdn_entities`, CSV branch (ofac.py lines 136-168).  A row
of the `csv.DictReader` is modelled by the columns the code reads; a missing
column and an empty cell are both `""` (the code collapses them with
`row.get(...) or ""`). -/

/-- One CSV row of the SDN export, restricted to the columns read. -/
structure OfacCsvRow where
  sdnType : String
  sdnName : String
  programList : String
  remarks : String
  addListDate : String
  publicationDate : String
  ent_num : String
  callSign : String
  vesselType : String
  vesselFlag : String
  deriving DecidableEq, Repr

/-- Helper for Python `s.split(";")`: split at every semicolon, keeping
empty fields (so `"".split(";") == [""]`). -/
def splitSemiAux : List Char → List Char → List String
  | [], cur => [⟨cur.reverse⟩]
  | c :: cs, cur =>
    if c = ';' then ⟨cur.reverse⟩ :: splitSemiAux cs []
    else splitSemiAux cs (c :: cur)

/-- Python `s.split(";")`. -/
def pySplitSemi (s : String) : List String :=
  splitSemiAux s.data []

/-- `[p.strip() for p in (row.get("programList") or "").split(";") if p.strip()]`. -/
def parsePrograms (programList : String) : List String :=
  ((pySplitSemi programList).map pyStrip).filter (fun p => p ≠ "")

/-- The body of the CSV row loop: `none` when the row is skipped
(`sdnType` not `Entity`/`Vessel`, or empty name). -/
def parseCsvRow (row : OfacCsvRow) : Option OfacEntity :=
  let sdn_type := pyStrip row.sdnType
  if sdn_type ∈ (["Entity", "Vessel"] : List String) then
    let sdn_name := pyStrip row.sdnName
    if sdn_name ≠ "" then
      some
        { name := sdn_name
          type := sdn_type
          programs := parsePrograms row.programList
          remarks := pyStrip row.remarks
          publishDate :=
            pyStrip (if row.addListDate ≠ "" then row.addListDate else row.publicationDate)
          sdn_number := pyStrip row.ent_num
          aliases := []
          addresses := []
          ids := []
          vessel_details :=
            if sdn_type = "Vessel" then
              some
                { call_sign := pyStrip row.callSign
                  vessel_type := pyStrip row.vesselType
                  flag := pyStrip row.vesselFlag }
            else none }
    else none
  else none

/-- The whole CSV row loop. -/
def parseCsvRows (rows : List OfacCsvRow) : List OfacEntity :=
  rows.filterMap parseCsvRow

/-! ## OFAC fetch, cache and search

`_load_sdn_entities` (ofac.py lines 120-192): serve the cache when it is
younger than the 6-hour TTL, otherwise run one pass of the attempt sequence
CSV → classic XML → advanced XML, caching the outcome (the empty list when
everything fails).  The network is an environment value: each field is
`none` when that fetch raises or returns a non-200 status (or, for XML, when
parsing raises), and `some` the parsed payload otherwise. -/

/-- What each OFAC fetch attempt would yield. -/
structure OfacFetchEnv where
  csv : Option (List OfacCsvRow)
  xmlClassic : Option (List OfacEntity)
  xmlAdv : Option (List OfacEntity)
  deriving DecidableEq, Repr

/-- The cache TTL, `timedelta(hours=6)`, in seconds. -/
def cacheTTL : Int := 21600

/-- The advanced-XML attempt (third and last URL of the fallback loop);
`n` counts the HTTP requests already made. -/
def ofacAdvAttempt (env : OfacFetchEnv) (n : Nat) : List OfacEntity × Nat :=
  match env.xmlAdv with
  | some es => if es.isEmpty then ([], n + 1) else (es, n + 1)
  | none => ([], n + 1)

/-- The classic-XML attempt followed by the advanced one. -/
def ofacXmlAttempts (env : OfacFetchEnv) (n : Nat) : List OfacEntity × Nat :=
  match env.xmlClassic with
  | some es => if es.isEmpty then ofacAdvAttempt env (n + 1) else (es, n + 1)
  | none => ofacAdvAttempt env (n + 1)

/-- One full pass of the fetch attempt sequence, returning the entities and
the number of HTTP requests made.  An empty parse result falls through to
the next attempt (`if entities:` guards in the source). -/
def ofacRunAttempts (env : OfacFetchEnv) : List OfacEntity × Nat :=
  match env.csv with
  | some rows =>
    let es := parseCsvRows rows
    if es.isEmpty then ofacXmlAttempts env 1 else (es, 1)
  | none => ofacXmlAttempts env 1

/-- The result of `_load_sdn_entities`: the entity list served, the cache
afterwards, and how many HTTP requests were made. -/
structure LoadOutcome (ε : Type) where
  entities : List ε
  cache : Option (Int × List ε)
  requests : Nat
  deriving DecidableEq, Repr

/-- `_load_sdn_entities` (ofac.py lines 120-192). -/
def ofacLoadSdnEntities (now : Int) (cache : Option (Int × List OfacEntity))
    (env : OfacFetchEnv) : LoadOutcome OfacEntity :=
  match cache with
  | some (t, es) =>
    if now - t < cacheTTL then ⟨es, some (t, es), 0⟩
    else
      let p := ofacRunAttempts env
      ⟨p.1, some (now, p.1), p.2⟩
  | none =>
    let p := ofacRunAttempts env
    ⟨p.1, some (now, p.1), p.2⟩

/-- The match-building loop of OFAC `search_company` (ofac.py lines 70-87),
applied to an already-cleaned query. -/
def ofacMatchesFor (cleaned : String) (threshold : ℚ) (entries : List OfacEntity) :
    List OfacMatch :=
  entries.filterMap (fun e =>
    let score := ofacCalculateMatchScore cleaned e.name
    if threshold ≤ score then
      some
        { name := e.name
          match_score := round2 score
          type := e.type
          programs := e.programs
          aliases := e.aliases
          addresses := e.addresses
          ids := e.ids
          remarks := e.remarks
          publishDate := e.publishDate
          sdn_number := e.sdn_number
          source := "OFAC SDN"
          vessel_details := e.vessel_details }
    else none)

/-- The outcome of one `search_company` call: the envelope returned, the
cache afterwards, and the number of HTTP requests made. -/
structure SearchOutcome (μ ε : Type) where
  result : SearchResult μ
  cache : Option (Int × List ε)
  requests : Nat
  deriving DecidableEq, Repr

/-- `OFACClient.search_company` (ofac.py lines 55-107).  `exc = some msg`
models an exception with text `msg` raised inside the `try` block and caught
by the `except Exception` arm; `exc = none` is the normal path. -/
def ofacSearchCompany (exc : Option String) (now : Int)
    (cache : Option (Int × List OfacEntity)) (env : OfacFetchEnv)
    (company_name : String) (threshold : ℚ) : SearchOutcome OfacMatch OfacEntity :=
  match exc with
  | some msg => ⟨mkErrEnvelope company_name now msg, cache, 0⟩
  | none =>
    let cleaned := ofacCleanCompanyName company_name
    let L := ofacLoadSdnEntities now cache env
    ⟨mkOkEnvelope company_name now (ofacMatchesFor cleaned threshold L.entities),
      L.cache, L.requests⟩

/-! ## EU fetch, cache and search

`EUSanctionsClient._load_entities` (eu_sanctions.py lines 123-149):
`_get_first_success` walks `[primary, token]` URLs and returns the first
200-with-content response; the XML body is then parsed (falling through to
the CSV pair when parsing raises); total failure caches the empty list.  A
URL slot is `none` when the GET raises or the response is not 200/empty;
`some none` when a response was obtained but parsing raises; and
`some (some entities)` for a parsed payload (possibly empty — the EU client
caches and returns an empty parse result, it has no `if entities:` guard). -/

/-- What each EU fetch attempt would yield (URL slot semantics above). -/
structure EUFetchEnv where
  xmlPrimary : Option (Option (List EUEntity))
  xmlToken : Option (Option (List EUEntity))
  csvPrimary : Option (Option (List EUEntity))
  csvToken : Option (Option (List EUEntity))
  deriving DecidableEq, Repr

/-- `_get_first_success` over a two-URL list, also counting the GETs made. -/
def firstSuccess2 {α : Type} (a b : Option α) : Option α × Nat :=
  match a with
  | some x => (some x, 1)
  | none =>
    match b with
    | some x => (some x, 2)
    | none => (none, 2)

/-- One full pass of the EU attempt sequence (XML pair, then CSV pair),
returning the entities and the number of HTTP requests made. -/
def euRunAttempts (env : EUFetchEnv) : List EUEntity × Nat :=
  let x := firstSuccess2 env.xmlPrimary env.xmlToken
  match x.1 with
  | some (some es) => (es, x.2)
  | some none =>
    let c := firstSuccess2 env.csvPrimary env.csvToken
    match c.1 with
    | some (some es) => (es, x.2 + c.2)
    | _ => ([], x.2 + c.2)
  | none =>
    let c := firstSuccess2 env.csvPrimary env.csvToken
    match c.1 with
    | some (some es) => (es, x.2 + c.2)
    | _ => ([], x.2 + c.2)

/-- `_load_entities` (eu_sanctions.py lines 123-149): same 6-hour TTL cache
policy as OFAC. -/
def euLoadEntities (now : Int) (cache : Option (Int × List EUEntity))
    (env : EUFetchEnv) : LoadOutcome EUEntity :=
  match cache with
  | some (t, es) =>
    if now - t < cacheTTL then ⟨es, some (t, es), 0⟩
    else
      let p := euRunAttempts env
      ⟨p.1, some (now, p.1), p.2⟩
  | none =>
    let p := euRunAttempts env
    ⟨p.1, some (now, p.1), p.2⟩

/-- The match-building loop of EU `search_company` (eu_sanctions.py lines
66-83), applied to an already-cleaned query. -/
def euMatchesFor (cleaned : String) (threshold : ℚ) (entities : List EUEntity) :
    List EUMatch :=
  entities.filterMap (fun ent =>
    let score := euCalculateMatchScore cleaned ent.name
    if threshold ≤ score then
      some
        { name := ent.name
          match_score := round2 score
          eu_reference_number := ent.eu_reference_number
          entity_type := ent.entity_type
          aliases := ent.aliases
          addresses := ent.addresses
          listing_date := ent.listing_date
          programme := ent.programme
          legal_basis := ent.legal_basis
          identifiers := ent.identifiers
          source := "EU Consolidated List"
          remarks := ent.remark }
    else none)

/-- `EUSanctionsClient.search_company` (eu_sanctions.py lines 61-102), with
the same exception convention as the OFAC embedding. -/
def euSearchCompany (exc : Option String) (now : Int)
    (cache : Option (Int × List EUEntity)) (env : EUFetchEnv)
    (company_name : String) (threshold : ℚ) : SearchOutcome EUMatch EUEntity :=
  match exc with
  | some msg => ⟨mkErrEnvelope company_name now msg, cache, 0⟩
  | none =>
    let cleaned := euCleanCompanyName company_name
    let L := euLoadEntities now cache env
    ⟨mkOkEnvelope company_name now (euMatchesFor cleaned threshold L.entities),
      L.cache, L.requests⟩

/-! ## OpenSanctions client

`OpenSanctionsClient` (opensanctions.py).  Its `__init__` (lines 15-19) sets
only the endpoint URLs — the client takes no API key.  `_search_api` (lines
87-117) returns the parsed `results` when the provider answers 200, the
empty list on any other status code, and the empty list when the GET raises
`requests.RequestException`. -/

/-- The property lists `search_company` and its helpers read from an
entity's `properties` dict.  A key that is absent and a key mapped to an
empty list behave identically everywhere they are used, so both are `[]`. -/
structure OsProperties where
  name : List String
  «alias» : List String
  weakAlias : List String
  previousName : List String
  tradeName : List String
  country : List String
  address : List String
  registrationNumber : List String
  taxNumber : List String
  vatCode : List String
  dunsCode : List String
  innCode : List String
  ogrnCode : List String
  swiftBic : List String
  imoNumber : List String
  lei : List String
  deriving DecidableEq, Repr

/-- An OpenSanctions entity as read by the match-building loop
(opensanctions.py lines 47-64). -/
structure OsEntity where
  id : String
  schema : String
  caption : Option String
  properties : OsProperties
  datasets : List String
  first_seen : String
  last_seen : String
  topics : List String
  deriving DecidableEq, Repr

/-- One element of the provider's `results` list: the provider-assigned
0-100 `score` plus the entity payload. -/
structure OsResult where
  score : ℚ
  entity : OsEntity
  deriving DecidableEq, Repr

/-- An address record built by `_get_addresses` (opensanctions.py lines
216-231): either `{"full_address": ...}` or `{"country": ...}`. -/
structure OsAddress where
  full_address : Option String
  country : Option String
  deriving DecidableEq, Repr

/-- `_get_primary_name` (opensanctions.py lines 158-173). -/
def osGetPrimaryName (e : OsEntity) : String :=
  match e.properties.name with
  | n :: _ => n
  | [] =>
    match e.properties.alias with
    | a :: _ => a
    | [] =>
      match e.properties.weakAlias with
      | a :: _ => a
      | [] =>
        match e.properties.previousName with
        | a :: _ => a
        | [] => e.caption.getD "Unknown"

/-- `_get_aliases` (opensanctions.py lines 175-189).  `list(set(...))`
deduplicates with an unspecified iteration order; first-occurrence order is
fixed here (no statement below depends on the order). -/
def osGetAliases (p : OsProperties) : List String :=
  (p.alias ++ p.weakAlias ++ p.previousName ++ p.tradeName).eraseDups

/-- The dataset-code table of `_get_sanctions_programs` (opensanctions.py
lines 199-208). -/
def osDatasetMapping : List (String × String) :=
  [("us_ofac_sdn", "US OFAC SDN"),
   ("eu_fsf", "EU Consolidated"),
   ("un_sc_sanctions", "UN Security Council"),
   ("gb_hmt_sanctions", "UK Treasury"),
   ("ca_dfatd_sema_sanctions", "Canada SEMA"),
   ("au_dfat_sanctions", "Australia DFAT"),
   ("ch_seco_sanctions", "Switzerland SECO"),
   ("jp_mof_sanctions", "Japan MOF")]

/-- `_get_sanctions_programs` (opensanctions.py lines 191-214). -/
def osGetSanctionsPrograms (e : OsEntity) : List String :=
  e.datasets.map (fun d => (osDatasetMapping.lookup d).getD d)

/-- `_get_addresses` (opensanctions.py lines 216-231). -/
def osGetAddresses (p : OsProperties) : List OsAddress :=
  let addresses := p.address.map (fun a => OsAddress.mk (some a) none)
  if addresses.isEmpty then p.country.map (fun c => OsAddress.mk none (some c))
  else addresses

/-- `_get_identifiers` (opensanctions.py lines 233-260), in the insertion
order of the `id_fields` dict. -/
def osGetIdentifiers (p : OsProperties) : List IdRecord :=
  (p.registrationNumber.map (fun v => IdRecord.mk "Registration" v)) ++
  (p.taxNumber.map (fun v => IdRecord.mk "Tax ID" v)) ++
  (p.vatCode.map (fun v => IdRecord.mk "VAT" v)) ++
  (p.dunsCode.map (fun v => IdRecord.mk "DUNS" v)) ++
  (p.innCode.map (fun v => IdRecord.mk "INN" v)) ++
  (p.ogrnCode.map (fun v => IdRecord.mk "OGRN" v)) ++
  (p.swiftBic.map (fun v => IdRecord.mk "SWIFT/BIC" v)) ++
  (p.imoNumber.map (fun v => IdRecord.mk "IMO" v)) ++
  (p.lei.map (fun v => IdRecord.mk "LEI" v))

/-- One OpenSanctions match entry (opensanctions.py lines 50-65). -/
structure OsMatch where
  name : String
  match_score : ℚ
  entity_id : String
  schema : String
  aliases : List String
  countries : List String
  programs : List String
  addresses : List OsAddress
  identifiers : List IdRecord
  source : String
  dataset : List String
  first_seen : String
  last_seen : String
  topics : List String
  deriving DecidableEq, Repr

/-- What the one OpenSanctions GET would yield: a response with its status
code and parsed `results`, or a `requests.RequestException`. -/
inductive OsFetchOutcome where
  | ok (status_code : Nat) (results : List OsResult)
  | exn
  deriving DecidableEq, Repr

/-- `_search_api` (opensanctions.py lines 87-117): the `results` field on a
200 response, the empty list on any other status or on a request
exception. -/
def osSearchApi : OsFetchOutcome → List OsResult
  | .ok status_code results => if status_code = 200 then results else []
  | .exn => []

/-- The match-building loop of OpenSanctions `search_company`
(opensanctions.py lines 40-65): the provider score is divided by 100 to the
common 0-1 scale and filtered by the threshold. -/
def osMatchesFor (threshold : ℚ) (results : List OsResult) : List OsMatch :=
  results.filterMap (fun r =>
    let score := r.score / 100
    if threshold ≤ score then
      some
        { name := osGetPrimaryName r.entity
          match_score := round2 score
          entity_id := r.entity.id
          schema := r.entity.schema
          aliases := osGetAliases r.entity.properties
          countries := r.entity.properties.country
          programs := osGetSanctionsPrograms r.entity
          addresses := osGetAddresses r.entity.properties
          identifiers := osGetIdentifiers r.entity.properties
          source := "OpenSanctions"
          dataset := r.entity.datasets
          first_seen := r.entity.first_seen
          last_seen := r.entity.last_seen
          topics := r.entity.topics }
    else none)

/-- `OpenSanctionsClient.search_company` (opensanctions.py lines 21-85),
with the same exception convention as the other clients.  There is no cache
and exactly one GET per call. -/
def osSearchCompany (exc : Option String) (now : Int) (outcome : OsFetchOutcome)
    (company_name : String) (threshold : ℚ) : SearchResult OsMatch :=
  match exc with
  | some msg => mkErrEnvelope company_name now msg
  | none => mkOkEnvelope company_name now (osMatchesFor threshold (osSearchApi outcome))

/-! ## Risk-severity derivation

app.py lines 170-180 (OFAC findings) and 248-259 (OpenSanctions findings):
`sev = "critical" if (m.get("match_score") or 0) > 0.9 else "high"`.
`m.get("match_score")` is `none` for a missing key; `x or 0` is `0` for
`None` and numerically the identity on any number, modelled by `getD 0`. -/

/-- The severity assigned to one sanctions match in `app.py`. -/
def riskSeverity (match_score : Option ℚ) : String :=
  if 9 / 10 < match_score.getD 0 then "critical" else "high"

/-! ## Predicates and concrete fixtures used by the theorems -/

/-- The spec's invariant on a `SearchResult` envelope: `found_matches`
exactly when there are matches, and an error envelope is empty with a
populated error text. -/
def envelopeInvariant {μ : Type} (r : SearchResult μ) : Prop :=
  (r.status = "found_matches" ↔ 0 < r.match_count) ∧
  (r.status = "found_matches" ↔ r.matches ≠ []) ∧
  (r.status = "error" →
    r.matches = [] ∧ r.match_count = 0 ∧ ∃ msg, r.error = some msg ∧ msg ≠ "")

/-- A cache state that will not be served: absent, or at least TTL old. -/
def cacheMiss {ε : Type} (now : Int) : Option (Int × List ε) → Bool
  | none => true
  | some (t, _) => !(decide (now - t < cacheTTL))

/-- Every OFAC fetch attempt fails or yields no parseable entities. -/
def ofacAllFetchFail (env : OfacFetchEnv) : Bool :=
  (match env.csv with
   | none => true
   | some rows => (parseCsvRows rows).isEmpty) &&
  (match env.xmlClassic with
   | none => true
   | some es => es.isEmpty) &&
  (match env.xmlAdv with
   | none => true
   | some es => es.isEmpty)

/-- One EU URL slot that fails or yields no parseable entities. -/
def euSlotFail : Option (Option (List EUEntity)) → Bool
  | none => true
  | some none => true
  | some (some es) => es.isEmpty

/-- Every EU fetch attempt fails or yields no parseable entities. -/
def euAllFetchFail (env : EUFetchEnv) : Bool :=
  euSlotFail env.xmlPrimary && euSlotFail env.xmlToken &&
  euSlotFail env.csvPrimary && euSlotFail env.csvToken

/-- The spec's description of the scorer: tiers in strict priority order on
the normalized operands (empty → 0; equal → 1; substring either way → 0.9
exactly; otherwise the Jaccard index of the word sets), with the result in
[0, 1].  In the Jaccard clause `0 / 0 = 0` covers the code's
`if not sw or not fw` guard. -/
def scoreTierSpec (cl : String → String) (sc : String → String → ℚ) : Prop :=
  ∀ a b : String,
    (cl a = "" ∨ cl b = "" → sc a b = 0) ∧
    (cl a ≠ "" → cl b ≠ "" → cl a = cl b → sc a b = 1) ∧
    (cl a ≠ "" → cl b ≠ "" → cl a ≠ cl b →
      (pyIn (cl a) (cl b) = true ∨ pyIn (cl b) (cl a) = true) → sc a b = 9 / 10) ∧
    (cl a ≠ "" → cl b ≠ "" → cl a ≠ cl b →
      ¬(pyIn (cl a) (cl b) = true ∨ pyIn (cl b) (cl a) = true) →
      sc a b = (((pyWords (cl a)).toFinset ∩ (pyWords (cl b)).toFinset).card : ℚ) /
        (((pyWords (cl a)).toFinset ∪ (pyWords (cl b)).toFinset).card : ℚ)) ∧
    (0 ≤ sc a b ∧ sc a b ≤ 1)

/-- A sample OpenSanctions entity payload for concrete counterexamples. -/
def sampleOsEntity : OsEntity :=
  { id := "Q123"
    schema := "Company"
    caption := some "GAZPROM"
    properties :=
      { name := ["GAZPROM"], «alias» := [], weakAlias := [], previousName := []
        tradeName := [], country := ["ru"], address := [], registrationNumber := []
        taxNumber := [], vatCode := [], dunsCode := [], innCode := [], ogrnCode := []
        swiftBic := [], imoNumber := [], lei := [] }
    datasets := ["us_ofac_sdn"]
    first_seen := ""
    last_seen := ""
    topics := ["sanction"] }

/-- The spec's simulated `Entity` CSV row. -/
def gazpromRow : OfacCsvRow :=
  { sdnType := "Entity", sdnName := "GAZPROM", programList := "RUSSIA-EO14024"
    remarks := "", addListDate := "", publicationDate := "", ent_num := ""
    callSign := "", vesselType := "", vesselFlag := "" }

/-- The spec's simulated `Individual` CSV row. -/
def ivanRow : OfacCsvRow :=
  { sdnType := "Individual", sdnName := "IVAN PETROV", programList := "RUSSIA-EO14024"
    remarks := "", addListDate := "", publicationDate := "", ent_num := ""
    callSign := "", vesselType := "", vesselFlag := "" }

/-- The network environment serving exactly that two-row CSV. -/
def gazpromCsvEnv : OfacFetchEnv :=
  ⟨some [gazpromRow, ivanRow], none, none⟩

/-- The entity the CSV parser extracts from `gazpromRow`. -/
def gazpromEntity : OfacEntity :=
  { name := "GAZPROM", type := "Entity", programs := ["RUSSIA-EO14024"]
    remarks := "", publishDate := "", sdn_number := "", aliases := []
    addresses := [], ids := [], vessel_details := none }

/-- The match `search_company` produces for the query `"Gazprom"`. -/
def gazpromMatch : OfacMatch :=
  { name := "GAZPROM", match_score := 1, type := "Entity"
    programs := ["RUSSIA-EO14024"], aliases := [], addresses := [], ids := []
    remarks := "", publishDate := "", sdn_number := "", source := "OFAC SDN"
    vessel_details := none }

/-! ## Tier lemmas for the scorer body -/

lemma tierScore_zero (s f : String) (h : s = "" ∨ f = "") : tierScore s f = 0 := by
  unfold tierScore
  rw [if_pos h]

lemma tierScore_one (s f : String) (hs : s ≠ "") (hf : f ≠ "") (he : s = f) :
    tierScore s f = 1 := by
  unfold tierScore
  rw [if_neg (not_or.mpr ⟨hs, hf⟩), if_pos he]

lemma tierScore_substring (s f : String) (hs : s ≠ "") (hf : f ≠ "")
    (hne : s ≠ f) (hsub : pyIn s f = true ∨ pyIn f s = true) :
    tierScore s f = 9 / 10 := by
  unfold tierScore
  rw [if_neg (not_or.mpr ⟨hs, hf⟩), if_neg hne,
    if_pos ((Bool.or_eq_true _ _).mpr hsub)]

lemma tierScore_jaccard (s f : String) (hs : s ≠ "") (hf : f ≠ "")
    (hne : s ≠ f) (hnsub : ¬(pyIn s f = true ∨ pyIn f s = true)) :
    tierScore s f = (((pyWords s).toFinset ∩ (pyWords f).toFinset).card : ℚ) /
      (((pyWords s).toFinset ∪ (pyWords f).toFinset).card : ℚ) := by
  unfold tierScore
  rw [if_neg (not_or.mpr ⟨hs, hf⟩), if_neg hne,
    if_neg (by simpa [Bool.or_eq_true] using hnsub)]
  by_cases hg : (pyWords s).toFinset = ∅ ∨ (pyWords f).toFinset = ∅
  · rw [if_pos hg]
    rcases hg with h | h
    · rw [h, Finset.empty_inter]
      simp
    · rw [h, Finset.inter_empty]
      simp
  · rw [if_neg hg]

lemma tierScore_nonneg (s f : String) : 0 ≤ tierScore s f := by
  unfold tierScore
  split_ifs
  · exact le_refl 0
  · exact zero_le_one
  · norm_num
  · exact le_refl 0
  · positivity

lemma tierScore_le_one (s f : String) : tierScore s f ≤ 1 := by
  unfold tierScore
  split_ifs
  · exact zero_le_one
  · exact le_refl 1
  · norm_num
  · exact zero_le_one
  · refine div_le_one_of_le₀ ?_ (by positivity)
    exact_mod_cast Finset.card_le_card Finset.inter_subset_union

/-! ## The envelope invariant (claim C1) -/

lemma envelopeInvariant_mkOk {μ : Type} (name : String) (ts : Int) (ms : List μ) :
    envelopeInvariant (mkOkEnvelope name ts ms) := by
  unfold envelopeInvariant mkOkEnvelope
  cases ms <;> simp

lemma envelopeInvariant_mkErr {μ : Type} (name : String) (ts : Int) (msg : String)
    (h : msg ≠ "") : envelopeInvariant (mkErrEnvelope (μ := μ) name ts msg) := by
  unfold envelopeInvariant mkErrEnvelope
  refine ⟨by simp, by simp, fun _ => ⟨rfl, rfl, msg, rfl, h⟩⟩

/-- Claim C1: every envelope constructed by `search_company` in the OFAC, EU
and OpenSanctions clients satisfies `status = "found_matches" ↔
match_count > 0 ↔ matches ≠ []`, and an error envelope has no matches, a
zero count and carries the exception text (non-empty whenever the caught
exception renders non-empty, which it is for every exception these bodies
can raise). -/
theorem searchResult_envelope_invariant :
    (∀ (exc : Option String) (now : Int) (cache : Option (Int × List OfacEntity))
        (env : OfacFetchEnv) (name : String) (th : ℚ),
        (∀ msg, exc = some msg → msg ≠ "") →
        envelopeInvariant (ofacSearchCompany exc now cache env name th).result) ∧
    (∀ (exc : Option String) (now : Int) (cache : Option (Int × List EUEntity))
        (env : EUFetchEnv) (name : String) (th : ℚ),
        (∀ msg, exc = some msg → msg ≠ "") →
        envelopeInvariant (euSearchCompany exc now cache env name th).result) ∧
    (∀ (exc : Option String) (now : Int) (outcome : OsFetchOutcome)
        (name : String) (th : ℚ),
        (∀ msg, exc = some msg → msg ≠ "") →
        envelopeInvariant (osSearchCompany exc now outcome name th)) := by
  refine ⟨fun exc now cache env name th hexc => ?_,
          fun exc now cache env name th hexc => ?_,
          fun exc now outcome name th hexc => ?_⟩
  · cases exc with
    | none => exact envelopeInvariant_mkOk ..
    | some msg => exact envelopeInvariant_mkErr name now msg (hexc msg rfl)
  · cases exc with
    | none => exact envelopeInvariant_mkOk ..
    | some msg => exact envelopeInvariant_mkErr name now msg (hexc msg rfl)
  · cases exc with
    | none => exact envelopeInvariant_mkOk ..
    | some msg => exact envelopeInvariant_mkErr name now msg (hexc msg rfl)

/-- Witness for `searchResult_envelope_invariant` at a concrete exception
and at a concrete successful OFAC call. -/
theorem searchResult_envelope_invariant_witness :
    (∀ msg : String, (some "boom" : Option String) = some msg → msg ≠ "") ∧
    envelopeInvariant
      (ofacSearchCompany (some "boom") 0 none ⟨none, none, none⟩ "Acme" (7 / 10)).result ∧
    envelopeInvariant
      (osSearchCompany none 0 (.ok 200 []) "Acme" (7 / 10)) := by
  have h : ∀ msg : String, (some "boom" : Option String) = some msg → msg ≠ "" := by
    intro msg hm
    cases hm
    decide
  exact ⟨h,
    searchResult_envelope_invariant.1 (some "boom") 0 none ⟨none, none, none⟩ "Acme" (7 / 10) h,
    searchResult_envelope_invariant.2.2 none 0 (.ok 200 []) "Acme" (7 / 10)
      (by intro msg hm; cases hm)⟩

/-! ## OpenSanctions auth failures (claim C2) -/



/-- Claim C2 counterexample: on an auth-failing provider response (HTTP 401,
as for a missing or invalid API key) `search_company` reports
`status = "clear"`, not `"error"` — even when the response body carries a
perfect-score hit. -/
theorem opensanctions_auth_failure_reports_clear :
    (osSearchCompany none 0 (.ok 401 [⟨95, sampleOsEntity⟩]) "Gazprom" (7 / 10)).status
      = "clear" ∧
    (osSearchCompany none 0 (.ok 401 [⟨95, sampleOsEntity⟩]) "Gazprom" (7 / 10)).status
      ≠ "error" := by
  constructor <;> decide

/-- Claim C2 (amended): the OpenSanctions client takes no API key, and a
non-200 provider response (including 401/403 auth failures) is silently
recovered — `_search_api` returns the empty list and `search_company`
returns `status = "clear"` with zero matches; a request exception does the
same. -/
theorem opensanctions_non200_silently_clear :
    (∀ (code : Nat) (results : List OsResult) (now : Int) (name : String) (th : ℚ),
        code ≠ 200 →
        (osSearchCompany none now (.ok code results) name th).status = "clear" ∧
        (osSearchCompany none now (.ok code results) name th).match_count = 0 ∧
        (osSearchCompany none now (.ok code results) name th).matches = []) ∧
    (∀ (now : Int) (name : String) (th : ℚ),
        (osSearchCompany none now .exn name th).status = "clear") := by
  constructor
  · intro code results now name th h
    simp [osSearchCompany, osSearchApi, osMatchesFor, mkOkEnvelope, h]
  · intro now name th
    simp [osSearchCompany, osSearchApi, osMatchesFor, mkOkEnvelope]

/-- Witness for `opensanctions_non200_silently_clear` at HTTP 401. -/
theorem opensanctions_non200_silently_clear_witness :
    (401 : Nat) ≠ 200 ∧
    (osSearchCompany none 0 (.ok 401 [⟨95, sampleOsEntity⟩]) "Acme" (7 / 10)).status
      = "clear" :=
  ⟨by decide,
    (opensanctions_non200_silently_clear.1 401 [⟨95, sampleOsEntity⟩] 0 "Acme" (7 / 10)
      (by decide)).1⟩

/-! ## Risk-severity derivation (claim C6) -/

/-- Claim C6: the severity derived from a sanctions match is `"critical"`
exactly when its `match_score` is strictly greater than 0.9, and `"high"`
otherwise (a score of exactly 0.9 yields `"high"`); no other severity is
ever produced. -/
theorem sanctions_severity_binary :
    (∀ q : ℚ, riskSeverity (some q) = "critical" ↔ 9 / 10 < q) ∧
    (∀ q : ℚ, riskSeverity (some q) = "high" ↔ ¬ 9 / 10 < q) ∧
    riskSeverity (some (9 / 10)) = "high" ∧
    (∀ s : Option ℚ, riskSeverity s = "critical" ∨ riskSeverity s = "high") := by
  have h910 : ¬ (9 / 10 : ℚ) < (some ((9 : ℚ) / 10)).getD 0 := by simp
  refine ⟨fun q => ?_, fun q => ?_, if_neg h910, fun s => ?_⟩
  · unfold riskSeverity
    simp only [Option.getD_some]
    split_ifs with h
    · exact iff_of_true rfl h
    · exact iff_of_false (by decide) h
  · unfold riskSeverity
    simp only [Option.getD_some]
    split_ifs with h
    · exact iff_of_false (by decide) (by simpa using h)
    · exact iff_of_true rfl h
  · unfold riskSeverity
    split_ifs
    · exact Or.inl rfl
    · exact Or.inr rfl

/-! ## Reflexivity of the scorer (claim C9) -/

/-- Claim C9 counterexample: `score(s, s)` is not 1.0 for every string:
when the normalized form is empty (e.g. `"llc"` for the EU normalizer,
`""` for OFAC) the empty-operand rule fires first and the score is 0.0. -/
theorem score_self_not_always_one :
    euCalculateMatchScore "llc" "llc" = 0 ∧
    euCalculateMatchScore "llc" "llc" ≠ 1 ∧
    ofacCalculateMatchScore "" "" = 0 := by
  refine ⟨by decide, by decide, by decide⟩

/-- Claim C9 (amended): for every string whose normalized form is
non-empty, both operands normalize identically, the exact-match rule fires,
and `score(s, s) = 1.0` — for the OFAC and EU scorers alike. -/
theorem score_self_eq_one_of_clean_ne_empty :
    ∀ s : String,
      (ofacCleanCompanyName s ≠ "" → ofacCalculateMatchScore s s = 1) ∧
      (euCleanCompanyName s ≠ "" → euCalculateMatchScore s s = 1) := by
  intro s
  constructor
  · intro h
    exact tierScore_one _ _ h h rfl
  · intro h
    exact tierScore_one _ _ h h rfl

/-- Witness for `score_self_eq_one_of_clean_ne_empty` at `"Gazprom"`. -/
theorem score_self_eq_one_of_clean_ne_empty_witness :
    ofacCleanCompanyName "Gazprom" ≠ "" ∧
    ofacCalculateMatchScore "Gazprom" "Gazprom" = 1 :=
  ⟨by decide, (score_self_eq_one_of_clean_ne_empty "Gazprom").1 (by decide)⟩

/-! ## Cache behavior (claims C7, C3, C10) -/








lemma ofacRunAttempts_allFail (env : OfacFetchEnv) (h : ofacAllFetchFail env = true) :
    ofacRunAttempts env = ([], 3) := by
  obtain ⟨csv, xc, xa⟩ := env
  unfold ofacAllFetchFail at h
  simp only [Bool.and_eq_true] at h
  obtain ⟨⟨h1, h2⟩, h3⟩ := h
  unfold ofacRunAttempts ofacXmlAttempts ofacAdvAttempt
  cases csv <;> cases xc <;> cases xa <;> simp_all

lemma euRunAttempts_allFail (env : EUFetchEnv) (h : euAllFetchFail env = true) :
    (euRunAttempts env).1 = [] := by
  obtain ⟨xp, xt, cp, ct⟩ := env
  unfold euAllFetchFail at h
  simp only [Bool.and_eq_true] at h
  obtain ⟨⟨⟨h1, h2⟩, h3⟩, h4⟩ := h
  unfold euRunAttempts firstSuccess2
  rcases xp with _ | (_ | es1) <;> rcases xt with _ | (_ | es2) <;>
    rcases cp with _ | (_ | es3) <;> rcases ct with _ | (_ | es4) <;>
    simp_all [euSlotFail]

lemma ofacLoad_miss (now : Int) (cache : Option (Int × List OfacEntity))
    (env : OfacFetchEnv) (h : cacheMiss now cache = true) :
    ofacLoadSdnEntities now cache env =
      ⟨(ofacRunAttempts env).1, some (now, (ofacRunAttempts env).1),
        (ofacRunAttempts env).2⟩ := by
  cases cache with
  | none => rfl
  | some p =>
    obtain ⟨t, es⟩ := p
    simp only [cacheMiss, Bool.not_eq_true', decide_eq_false_iff_not] at h
    simp [ofacLoadSdnEntities, h]

lemma euLoad_miss (now : Int) (cache : Option (Int × List EUEntity))
    (env : EUFetchEnv) (h : cacheMiss now cache = true) :
    euLoadEntities now cache env =
      ⟨(euRunAttempts env).1, some (now, (euRunAttempts env).1),
        (euRunAttempts env).2⟩ := by
  cases cache with
  | none => rfl
  | some p =>
    obtain ⟨t, es⟩ := p
    simp only [cacheMiss, Bool.not_eq_true', decide_eq_false_iff_not] at h
    simp [euLoadEntities, h]

/-- Claim C7: for the OFAC and EU clients, a call finding a cache entry
strictly younger than the 6-hour TTL performs no network fetch and scores
against exactly the cached entity sequence; a call finding an older entry
runs exactly one pass of the fetch attempt sequence and replaces the
cache. -/
theorem cache_ttl_behavior :
    (∀ (now t : Int) (es : List OfacEntity) (env : OfacFetchEnv)
        (name : String) (th : ℚ),
        now - t < cacheTTL →
        ofacSearchCompany none now (some (t, es)) env name th =
          ⟨mkOkEnvelope name now (ofacMatchesFor (ofacCleanCompanyName name) th es),
            some (t, es), 0⟩) ∧
    (∀ (now t : Int) (es : List OfacEntity) (env : OfacFetchEnv)
        (name : String) (th : ℚ),
        ¬ now - t < cacheTTL →
        ofacSearchCompany none now (some (t, es)) env name th =
          ⟨mkOkEnvelope name now
              (ofacMatchesFor (ofacCleanCompanyName name) th (ofacRunAttempts env).1),
            some (now, (ofacRunAttempts env).1), (ofacRunAttempts env).2⟩) ∧
    (∀ (now t : Int) (es : List EUEntity) (env : EUFetchEnv)
        (name : String) (th : ℚ),
        now - t < cacheTTL →
        euSearchCompany none now (some (t, es)) env name th =
          ⟨mkOkEnvelope name now (euMatchesFor (euCleanCompanyName name) th es),
            some (t, es), 0⟩) ∧
    (∀ (now t : Int) (es : List EUEntity) (env : EUFetchEnv)
        (name : String) (th : ℚ),
        ¬ now - t < cacheTTL →
        euSearchCompany none now (some (t, es)) env name th =
          ⟨mkOkEnvelope name now
              (euMatchesFor (euCleanCompanyName name) th (euRunAttempts env).1),
            some (now, (euRunAttempts env).1), (euRunAttempts env).2⟩) := by
  refine ⟨fun now t es env name th h => ?_, fun now t es env name th h => ?_,
          fun now t es env name th h => ?_, fun now t es env name th h => ?_⟩ <;>
    simp [ofacSearchCompany, euSearchCompany, ofacLoadSdnEntities, euLoadEntities, h]

/-- Witness for `cache_ttl_behavior`: a fresh cache entry (age 0) is served
with zero requests, and a stale one (age exactly the TTL) triggers the
attempt pass. -/
theorem cache_ttl_behavior_witness :
    ((0 : Int) - 0 < cacheTTL ∧
      ofacSearchCompany none 0 (some (0, [])) ⟨none, none, none⟩ "Acme" (7 / 10) =
        ⟨mkOkEnvelope "Acme" 0
            (ofacMatchesFor (ofacCleanCompanyName "Acme") (7 / 10) []),
          some (0, []), 0⟩) ∧
    (¬ (21600 : Int) - 0 < cacheTTL ∧
      ofacSearchCompany none 21600 (some (0, [])) ⟨none, none, none⟩ "Acme" (7 / 10) =
        ⟨mkOkEnvelope "Acme" 21600
            (ofacMatchesFor (ofacCleanCompanyName "Acme") (7 / 10)
              (ofacRunAttempts ⟨none, none, none⟩).1),
          some (21600, (ofacRunAttempts ⟨none, none, none⟩).1),
          (ofacRunAttempts ⟨none, none, none⟩).2⟩) :=
  ⟨⟨by decide,
      cache_ttl_behavior.1 0 0 [] ⟨none, none, none⟩ "Acme" (7 / 10) (by decide)⟩,
    ⟨by decide,
      cache_ttl_behavior.2.1 21600 0 [] ⟨none, none, none⟩ "Acme" (7 / 10) (by decide)⟩⟩

/-- Claim C3: when no fresh cache entry exists and every fetch attempt
fails or yields no parseable entities, OFAC and EU `search_company` return
a `"clear"` envelope with zero matches for any query — the empty entity
universe is not an error (and, the embedding being total, no exception
reaches the caller). -/
theorem fetch_failure_returns_clear :
    (∀ (now : Int) (cache : Option (Int × List OfacEntity)) (env : OfacFetchEnv)
        (name : String) (th : ℚ),
        cacheMiss now cache = true → ofacAllFetchFail env = true →
        (ofacSearchCompany none now cache env name th).result.status = "clear" ∧
        (ofacSearchCompany none now cache env name th).result.match_count = 0 ∧
        (ofacSearchCompany none now cache env name th).result.matches = []) ∧
    (∀ (now : Int) (cache : Option (Int × List EUEntity)) (env : EUFetchEnv)
        (name : String) (th : ℚ),
        cacheMiss now cache = true → euAllFetchFail env = true →
        (euSearchCompany none now cache env name th).result.status = "clear" ∧
        (euSearchCompany none now cache env name th).result.match_count = 0 ∧
        (euSearchCompany none now cache env name th).result.matches = []) := by
  constructor
  · intro now cache env name th hmiss hfail
    have h1 := ofacLoad_miss now cache env hmiss
    have h2 := ofacRunAttempts_allFail env hfail
    simp [ofacSearchCompany, h1, h2, ofacMatchesFor, mkOkEnvelope]
  · intro now cache env name th hmiss hfail
    have h1 := euLoad_miss now cache env hmiss
    have h2 := euRunAttempts_allFail env hfail
    simp [euSearchCompany, h1, h2, euMatchesFor, mkOkEnvelope]

/-- Witness for `fetch_failure_returns_clear`: a cold cache and a network
where every attempt fails. -/
theorem fetch_failure_returns_clear_witness :
    cacheMiss (0 : Int) (none : Option (Int × List OfacEntity)) = true ∧
    ofacAllFetchFail ⟨none, none, none⟩ = true ∧
    (ofacSearchCompany none 0 none ⟨none, none, none⟩ "Gazprom" (7 / 10)).result.status
      = "clear" ∧
    euAllFetchFail ⟨none, none, none, none⟩ = true ∧
    (euSearchCompany none 0 none ⟨none, none, none, none⟩ "Gazprom" (7 / 10)).result.status
      = "clear" :=
  ⟨rfl, rfl,
    (fetch_failure_returns_clear.1 0 none ⟨none, none, none⟩ "Gazprom" (7 / 10) rfl rfl).1,
    rfl,
    (fetch_failure_returns_clear.2 0 none ⟨none, none, none, none⟩ "Gazprom" (7 / 10)
      rfl rfl).1⟩

/-- Claim C10: when every fetch attempt fails, OFAC and EU cache the empty
entity list under the current timestamp (after a full three-request pass
for OFAC), and every subsequent call within the TTL window is answered
`"clear"` from the cached empty list with zero network requests and an
unchanged cache. -/
theorem failed_fetch_caches_empty_for_ttl :
    (∀ (now : Int) (cache : Option (Int × List OfacEntity)) (env : OfacFetchEnv)
        (name : String) (th : ℚ),
        cacheMiss now cache = true → ofacAllFetchFail env = true →
        (ofacSearchCompany none now cache env name th).cache = some (now, []) ∧
        (ofacSearchCompany none now cache env name th).requests = 3 ∧
        (∀ (now2 : Int) (env2 : OfacFetchEnv) (name2 : String) (th2 : ℚ),
          now2 - now < cacheTTL →
          ofacSearchCompany none now2 (some (now, [])) env2 name2 th2 =
            ⟨mkOkEnvelope name2 now2 [], some (now, []), 0⟩)) ∧
    (∀ (now : Int) (cache : Option (Int × List EUEntity)) (env : EUFetchEnv)
        (name : String) (th : ℚ),
        cacheMiss now cache = true → euAllFetchFail env = true →
        (euSearchCompany none now cache env name th).cache = some (now, []) ∧
        (∀ (now2 : Int) (env2 : EUFetchEnv) (name2 : String) (th2 : ℚ),
          now2 - now < cacheTTL →
          euSearchCompany none now2 (some (now, [])) env2 name2 th2 =
            ⟨mkOkEnvelope name2 now2 [], some (now, []), 0⟩)) := by
  constructor
  · intro now cache env name th hmiss hfail
    have h1 := ofacLoad_miss now cache env hmiss
    have h2 := ofacRunAttempts_allFail env hfail
    refine ⟨by simp [ofacSearchCompany, h1, h2], by simp [ofacSearchCompany, h1, h2], ?_⟩
    intro now2 env2 name2 th2 hfresh
    simp [ofacSearchCompany, ofacLoadSdnEntities, hfresh, ofacMatchesFor]
  · intro now cache env name th hmiss hfail
    have h1 := euLoad_miss now cache env hmiss
    have h2 := euRunAttempts_allFail env hfail
    refine ⟨by simp [euSearchCompany, h1, h2], ?_⟩
    intro now2 env2 name2 th2 hfresh
    simp [euSearchCompany, euLoadEntities, hfresh, euMatchesFor]

/-- Witness for `failed_fetch_caches_empty_for_ttl`: an outage at time 0
serves `"clear"` from the cached empty list until the TTL expires. -/
theorem failed_fetch_caches_empty_for_ttl_witness :
    cacheMiss (0 : Int) (none : Option (Int × List OfacEntity)) = true ∧
    ofacAllFetchFail ⟨none, none, none⟩ = true ∧
    (ofacSearchCompany none 0 none ⟨none, none, none⟩ "Acme" (7 / 10)).cache
      = some (0, []) ∧
    (ofacSearchCompany none 0 none ⟨none, none, none⟩ "Acme" (7 / 10)).requests = 3 :=
  ⟨rfl, rfl,
    (failed_fetch_caches_empty_for_ttl.1 0 none ⟨none, none, none⟩ "Acme" (7 / 10)
      rfl rfl).1,
    (failed_fetch_caches_empty_for_ttl.1 0 none ⟨none, none, none⟩ "Acme" (7 / 10)
      rfl rfl).2.1⟩

/-! ## The OFAC CSV example and the row filter (claim C4) -/











lemma parse_gazprom_rows : parseCsvRows [gazpromRow, ivanRow] = [gazpromEntity] := by
  decide

lemma round2_one : round2 1 = 1 := by
  unfold round2
  norm_num

lemma gazprom_score :
    ofacCalculateMatchScore (ofacCleanCompanyName "Gazprom") "GAZPROM" = 1 := by
  have h1 : ofacCleanCompanyName (ofacCleanCompanyName "Gazprom") = "GAZPROM" := by decide
  have h2 : ofacCleanCompanyName "GAZPROM" = "GAZPROM" := by decide
  unfold ofacCalculateMatchScore
  rw [h1, h2]
  exact tierScore_one _ _ (by decide) (by decide) rfl

/-- Claim C4: on a CSV universe of one `Entity` row named `"GAZPROM"`
(program RUSSIA-EO14024) and one `Individual` row named `"IVAN PETROV"`,
searching `"Gazprom"` at threshold 0.7 yields exactly the single match
`("GAZPROM", 1.0)`; and in general a match can only originate from a CSV
row whose stripped `sdnType` is `Entity` or `Vessel` and whose stripped
`sdnName` is non-empty. -/
theorem ofac_csv_gazprom_search :
    ((ofacSearchCompany none 0 none gazpromCsvEnv "Gazprom" (7 / 10)).result.matches
      = [gazpromMatch]) ∧
    (∀ (rows : List OfacCsvRow) (q : String) (th : ℚ) (m : OfacMatch),
      m ∈ ofacMatchesFor (ofacCleanCompanyName q) th (parseCsvRows rows) →
      ∃ row ∈ rows, pyStrip row.sdnType ∈ (["Entity", "Vessel"] : List String) ∧
        pyStrip row.sdnName ≠ "" ∧ m.name = pyStrip row.sdnName) := by
  constructor
  · have hrun : ofacRunAttempts gazpromCsvEnv = ([gazpromEntity], 1) := by
      simp [ofacRunAttempts, gazpromCsvEnv, parse_gazprom_rows]
    have hth : (7 : ℚ) / 10 ≤ 1 := by norm_num
    simp [ofacSearchCompany, ofacLoadSdnEntities, hrun, ofacMatchesFor,
      gazprom_score, gazpromEntity, hth, round2_one, mkOkEnvelope, gazpromMatch]
  · intro rows q th m hm
    simp only [ofacMatchesFor, List.mem_filterMap] at hm
    obtain ⟨e, he, hme⟩ := hm
    simp only [parseCsvRows, List.mem_filterMap] at he
    obtain ⟨row, hrow, hre⟩ := he
    have hmname : m.name = e.name := by
      by_cases hth : th ≤ ofacCalculateMatchScore (ofacCleanCompanyName q) e.name
      · rw [if_pos hth] at hme
        obtain rfl := Option.some.inj hme
        rfl
      · rw [if_neg hth] at hme
        exact absurd hme (by simp)
    simp only [parseCsvRow] at hre
    split at hre
    case isTrue h1 =>
      split at hre
      case isTrue h2 =>
        obtain rfl := Option.some.inj hre
        exact ⟨row, hrow, h1, h2, hmname⟩
      case isFalse h2 => exact absurd hre (by simp)
    case isFalse h1 => exact absurd hre (by simp)

/-- Witness for `ofac_csv_gazprom_search`: the concrete GAZPROM match is in
the match list and traces back to the `Entity` row. -/
theorem ofac_csv_gazprom_search_witness :
    gazpromMatch ∈ ofacMatchesFor (ofacCleanCompanyName "Gazprom") (7 / 10)
      (parseCsvRows [gazpromRow, ivanRow]) ∧
    ∃ row ∈ [gazpromRow, ivanRow],
      pyStrip row.sdnType ∈ (["Entity", "Vessel"] : List String) ∧
      pyStrip row.sdnName ≠ "" ∧ gazpromMatch.name = pyStrip row.sdnName := by
  have hth : (7 : ℚ) / 10 ≤ 1 := by norm_num
  have hmem : gazpromMatch ∈ ofacMatchesFor (ofacCleanCompanyName "Gazprom") (7 / 10)
      (parseCsvRows [gazpromRow, ivanRow]) := by
    simp [parse_gazprom_rows, ofacMatchesFor, gazprom_score, gazpromEntity, hth,
      round2_one, gazpromMatch]
  exact ⟨hmem,
    ofac_csv_gazprom_search.2 [gazpromRow, ivanRow] "Gazprom" (7 / 10) gazpromMatch hmem⟩

/-! ## Score tiers (claim C5) -/



/-- Claim C5: both the OFAC and the EU similarity scorers satisfy the
tiered specification above — containment scores exactly 0.9 (never more,
whatever the length difference), the tiers never blend, and every score
lies in [0, 1]. -/
theorem score_tier_priority_and_range :
    scoreTierSpec ofacCleanCompanyName ofacCalculateMatchScore ∧
    scoreTierSpec euCleanCompanyName euCalculateMatchScore := by
  constructor <;>
    exact fun a b =>
      ⟨fun h => tierScore_zero _ _ h,
       fun ha hb he => tierScore_one _ _ ha hb he,
       fun ha hb hne hsub => tierScore_substring _ _ ha hb hne hsub,
       fun ha hb hne hnsub => tierScore_jaccard _ _ ha hb hne hnsub,
       tierScore_nonneg _ _, tierScore_le_one _ _⟩

/-- Witness for `score_tier_priority_and_range`: the spec's own containment
example, `score("Acme", "Acme Holdings Group") = 0.9` exactly. -/
theorem score_tier_priority_and_range_witness :
    (ofacCleanCompanyName "Acme" ≠ "" ∧
      ofacCleanCompanyName "Acme Holdings Group" ≠ "" ∧
      ofacCleanCompanyName "Acme" ≠ ofacCleanCompanyName "Acme Holdings Group" ∧
      pyIn (ofacCleanCompanyName "Acme") (ofacCleanCompanyName "Acme Holdings Group")
        = true) ∧
    ofacCalculateMatchScore "Acme" "Acme Holdings Group" = 9 / 10 :=
  ⟨⟨by decide, by decide, by decide, by decide⟩,
    (score_tier_priority_and_range.1 "Acme" "Acme Holdings Group").2.2.1
      (by decide) (by decide) (by decide) (Or.inl (by decide))⟩

/-! ## Normalizer idempotence (claim C8)

The EU and OpenSanctions normalizers are idempotent; the proof runs the
output `join(words)` back through the pipeline and shows every stage is the
identity on it.  The OFAC normalizer is **not** idempotent (its suffix loop
tries each suffix once), refuted below by `"A CO CO"`. -/

lemma char_toNat_ofNat_valid (n : Nat) (h : n.isValidChar) :
    (Char.ofNat n).toNat = n := by
  unfold Char.ofNat
  rw [dif_pos h]
  rfl

lemma char_toLower_def (d : Char) :
    Char.toLower d = if d.toNat ≥ 65 ∧ d.toNat ≤ 90 then Char.ofNat (d.toNat + 32) else d :=
  rfl

lemma char_toLower_idem (c : Char) : (Char.toLower c).toLower = Char.toLower c := by
  by_cases h : c.toNat ≥ 65 ∧ c.toNat ≤ 90
  · rw [char_toLower_def c, if_pos h]
    have hv : (c.toNat + 32).isValidChar := Or.inl (by omega)
    rw [char_toLower_def, char_toNat_ofNat_valid _ hv, if_neg (by omega)]
  · rw [char_toLower_def c, if_neg h, char_toLower_def c, if_neg h]

lemma pyWordsAux_sound (P : Char → Prop) :
    ∀ (l cur : List Char), (∀ c ∈ l, c.isWhitespace = false → P c) →
      (∀ c ∈ cur, c.isWhitespace = false ∧ P c) →
      ∀ w ∈ pyWordsAux l cur,
        w.data ≠ [] ∧ ∀ c ∈ w.data, c.isWhitespace = false ∧ P c
  | [], cur, _, hcur, w, hw => by
    unfold pyWordsAux at hw
    split at hw
    · exact absurd hw (List.not_mem_nil w)
    · rename_i hcne
      rw [List.mem_singleton] at hw
      subst hw
      refine ⟨by simpa using hcne, fun c hc => hcur c ?_⟩
      simpa using hc
  | a :: l, cur, hl, hcur, w, hw => by
    unfold pyWordsAux at hw
    split at hw
    · rename_i ha
      split at hw
      · exact pyWordsAux_sound P l [] (fun c hc hws => hl c (List.mem_cons_of_mem a hc) hws)
          (by simp) w hw
      · rename_i hcne
        rcases List.mem_cons.mp hw with hw1 | hw2
        · subst hw1
          refine ⟨by simpa using hcne, fun c hc => hcur c ?_⟩
          simpa using hc
        · exact pyWordsAux_sound P l [] (fun c hc hws => hl c (List.mem_cons_of_mem a hc) hws)
            (by simp) w hw2
    · rename_i ha
      refine pyWordsAux_sound P l (a :: cur)
        (fun c hc hws => hl c (List.mem_cons_of_mem a hc) hws) ?_ w hw
      intro c hc
      rcases List.mem_cons.mp hc with h1 | hc2
      · rw [h1]
        exact ⟨by simpa using ha, hl a (List.mem_cons_self a l) (by simpa using ha)⟩
      · exact hcur c hc2

lemma mem_pyStrip {c : Char} {s : String} (h : c ∈ (pyStrip s).data) : c ∈ s.data := by
  unfold pyStrip at h
  rw [List.mem_reverse] at h
  have h2 := (List.dropWhile_sublist _).subset h
  rw [List.mem_reverse] at h2
  exact (List.dropWhile_sublist _).subset h2

/-- Characters of `subPunct (pyStrip (pyLower s))` that are not whitespace
are word characters fixed by `Char.toLower`. -/
lemma norm_chars (s : String) :
    ∀ c ∈ (subPunct (pyStrip (pyLower s))).data,
      c.isWhitespace = false → (isWordChar c = true ∧ Char.toLower c = c) := by
  intro c hc hws
  unfold subPunct at hc
  simp only [List.mem_map] at hc
  obtain ⟨d, hd, hcd⟩ := hc
  by_cases hword : (isWordChar d || d.isWhitespace) = true
  · rw [if_pos hword] at hcd
    subst hcd
    have hdl : ∃ e ∈ s.data, Char.toLower e = d := by
      have := mem_pyStrip (s := pyLower s) hd
      unfold pyLower at this
      simpa using this
    obtain ⟨e, _, he⟩ := hdl
    refine ⟨?_, by rw [← he, char_toLower_idem]⟩
    rcases Bool.or_eq_true _ _ |>.mp hword with h | h
    · exact h
    · rw [h] at hws
      exact absurd hws (by simp)
  · rw [if_neg hword] at hcd
    subst hcd
    exact absurd hws (by simp [Char.isWhitespace])

lemma stripTrail_subset (sufs : List String) (ws : List String) :
    ∀ w ∈ stripTrailingSuffixWords sufs ws, w ∈ ws := by
  intro w hw
  unfold stripTrailingSuffixWords at hw
  rw [List.mem_reverse] at hw
  have h2 := (List.dropWhile_sublist _).subset hw
  rwa [List.mem_reverse] at h2

lemma joinWords_cons_data (w w2 : String) (ws : List String) :
    (joinWords (w :: w2 :: ws)).data = w.data ++ ' ' :: (joinWords (w2 :: ws)).data := by
  show ((w ++ " ") ++ joinWords (w2 :: ws)).data = _
  rw [String.data_append, String.data_append, List.append_assoc]
  rfl

lemma joinWords_data_mem :
    ∀ (ws : List String) (c : Char), c ∈ (joinWords ws).data →
      c = ' ' ∨ ∃ w ∈ ws, c ∈ w.data
  | [], c, h => absurd h (by simp [joinWords])
  | [w], c, h => Or.inr ⟨w, List.mem_singleton_self w, by simpa [joinWords] using h⟩
  | w :: w2 :: ws, c, h => by
    rw [joinWords_cons_data, List.mem_append, List.mem_cons] at h
    rcases h with h | h | h
    · exact Or.inr ⟨w, List.mem_cons_self _ _, h⟩
    · exact Or.inl h
    · rcases joinWords_data_mem (w2 :: ws) c h with h1 | ⟨u, hu, hcu⟩
      · exact Or.inl h1
      · exact Or.inr ⟨u, List.mem_cons_of_mem w hu, hcu⟩

lemma map_eq_self_of_forall {f : Char → Char} {l : List Char}
    (h : ∀ c ∈ l, f c = c) : l.map f = l := by
  induction l with
  | nil => rfl
  | cons a l ih =>
    rw [List.map_cons, h a (List.mem_cons_self a l),
      ih (fun c hc => h c (List.mem_cons_of_mem a hc))]

lemma pyLower_joinWords (ws : List String)
    (h : ∀ w ∈ ws, ∀ c ∈ w.data, Char.toLower c = c) :
    pyLower (joinWords ws) = joinWords ws := by
  unfold pyLower
  rw [map_eq_self_of_forall]
  intro c hc
  rcases joinWords_data_mem ws c hc with rfl | ⟨w, hw, hcw⟩
  · decide
  · exact h w hw c hcw

lemma subPunct_joinWords (ws : List String)
    (h : ∀ w ∈ ws, ∀ c ∈ w.data, isWordChar c = true) :
    subPunct (joinWords ws) = joinWords ws := by
  unfold subPunct
  rw [map_eq_self_of_forall]
  intro c hc
  rcases joinWords_data_mem ws c hc with rfl | ⟨w, hw, hcw⟩
  · rw [if_pos]
    decide
  · rw [if_pos]
    rw [h w hw c hcw]
    rfl

lemma dropWhile_eq_self_of_head {p : Char → Bool} :
    ∀ l : List Char, (∀ c, l.head? = some c → p c = false) → l.dropWhile p = l
  | [], _ => rfl
  | c :: l, h => by
    rw [List.dropWhile_cons, h c rfl]
    simp

lemma joinWords_data_ne_nil :
    ∀ (w : String) (ws : List String), w.data ≠ [] → (joinWords (w :: ws)).data ≠ []
  | w, [], h => by simpa [joinWords] using h
  | w, w2 :: ws, h => by
    rw [joinWords_cons_data]
    intro hcon
    exact (List.cons_ne_nil ' ' _) (List.append_eq_nil.mp hcon).2

lemma joinWords_head? :
    ∀ (w : String) (ws : List String), w.data ≠ [] →
      (joinWords (w :: ws)).data.head? = w.data.head?
  | w, [], _ => by simp [joinWords]
  | w, w2 :: ws, h => by
    rw [joinWords_cons_data]
    obtain ⟨c, l, hcl⟩ := List.exists_cons_of_ne_nil h
    rw [hcl]
    rfl

lemma joinWords_getLast? :
    ∀ (ws : List String), (∀ w ∈ ws, w.data ≠ []) →
      ∀ c, (joinWords ws).data.getLast? = some c → ∃ w ∈ ws, c ∈ w.data
  | [], _, c, h => by
    simp [joinWords] at h
  | [w], hws, c, h => by
    rw [show joinWords [w] = w from rfl] at h
    exact ⟨w, List.mem_singleton_self w, List.mem_of_getLast?_eq_some h⟩
  | w :: w2 :: ws, hws, c, h => by
    rw [joinWords_cons_data, List.getLast?_append_cons,
      show (' ' :: (joinWords (w2 :: ws)).data)
          = [' '] ++ (joinWords (w2 :: ws)).data from rfl,
      List.getLast?_append_of_ne_nil _
        (joinWords_data_ne_nil w2 ws (hws w2 (by simp)))] at h
    obtain ⟨u, hu, hcu⟩ := joinWords_getLast? (w2 :: ws)
      (fun v hv => hws v (List.mem_cons_of_mem w hv)) c h
    exact ⟨u, List.mem_cons_of_mem w hu, hcu⟩

lemma pyStrip_joinWords (ws : List String)
    (h : ∀ w ∈ ws, w.data ≠ [] ∧ ∀ c ∈ w.data, c.isWhitespace = false) :
    pyStrip (joinWords ws) = joinWords ws := by
  cases ws with
  | nil => rfl
  | cons w ws =>
    unfold pyStrip
    have h1 : (joinWords (w :: ws)).data.dropWhile Char.isWhitespace
        = (joinWords (w :: ws)).data := by
      apply dropWhile_eq_self_of_head
      intro c hc
      rw [joinWords_head? w ws (h w (by simp)).1] at hc
      exact (h w (by simp)).2 c (List.mem_of_mem_head? (Option.mem_def.mpr hc))
    rw [h1]
    have h2 : (joinWords (w :: ws)).data.reverse.dropWhile Char.isWhitespace
        = (joinWords (w :: ws)).data.reverse := by
      apply dropWhile_eq_self_of_head
      intro c hc
      rw [List.head?_reverse] at hc
      obtain ⟨u, hu, hcu⟩ := joinWords_getLast? (w :: ws) (fun v hv => (h v hv).1) c hc
      exact (h u hu).2 c hcu
    rw [h2, List.reverse_reverse]

lemma pyWordsAux_nonws_chunk :
    ∀ (u rest cur : List Char), (∀ c ∈ u, c.isWhitespace = false) →
      pyWordsAux (u ++ rest) cur = pyWordsAux rest (u.reverse ++ cur)
  | [], rest, cur, _ => by simp
  | a :: u, rest, cur, h => by
    rw [List.cons_append]
    have step : pyWordsAux (a :: (u ++ rest)) cur = pyWordsAux (u ++ rest) (a :: cur) := by
      simp only [pyWordsAux]
      rw [if_neg (by simp [h a (List.mem_cons_self a u)])]
    rw [step, pyWordsAux_nonws_chunk u rest (a :: cur)
      (fun c hc => h c (List.mem_cons_of_mem a hc))]
    congr 1
    rw [List.reverse_cons, List.append_assoc, List.singleton_append]

lemma pyWords_joinWords :
    ∀ (ws : List String), (∀ w ∈ ws, w.data ≠ [] ∧ ∀ c ∈ w.data, c.isWhitespace = false) →
      pyWords (joinWords ws) = ws
  | [], _ => rfl
  | [w], h => by
    unfold pyWords
    have := pyWordsAux_nonws_chunk w.data [] [] (h w (by simp)).2
    rw [List.append_nil] at this
    rw [show (joinWords [w]).data = w.data from rfl, this]
    unfold pyWordsAux
    rw [if_neg (by simpa using (h w (by simp)).1)]
    rw [List.append_nil, List.reverse_reverse]
  | w :: w2 :: ws, h => by
    unfold pyWords
    rw [joinWords_cons_data, pyWordsAux_nonws_chunk w.data _ [] (h w (by simp)).2]
    unfold pyWordsAux
    rw [if_pos (by decide)]
    rw [List.append_nil, if_neg (by simpa using (h w (by simp)).1),
      List.reverse_reverse]
    have := pyWords_joinWords (w2 :: ws) (fun v hv => h v (List.mem_cons_of_mem w hv))
    unfold pyWords at this
    rw [this]

lemma dropWhile_dropWhile {α : Type} (p : α → Bool) :
    ∀ l : List α, (l.dropWhile p).dropWhile p = l.dropWhile p
  | [] => rfl
  | a :: l => by
    by_cases h : p a = true
    · rw [List.dropWhile_cons, if_pos h, dropWhile_dropWhile p l]
    · rw [List.dropWhile_cons, if_neg h, List.dropWhile_cons, if_neg h]

lemma stripTrail_idem (sufs : List String) (ws : List String) :
    stripTrailingSuffixWords sufs (stripTrailingSuffixWords sufs ws)
      = stripTrailingSuffixWords sufs ws := by
  unfold stripTrailingSuffixWords
  rw [List.reverse_reverse, dropWhile_dropWhile]

lemma string_data_ne_nil_iff (w : String) : w.data ≠ [] ↔ w ≠ "" := by
  constructor
  · intro h hcon
    subst hcon
    exact h rfl
  · intro h hcon
    apply h
    calc w = ⟨w.data⟩ := rfl
    _ = ⟨[]⟩ := by rw [hcon]
    _ = "" := rfl

/-- Idempotence of the shared lowercase normalizer shape. -/
lemma lowerNormalize_idem (sufs : List String) (s : String) :
    lowerNormalize sufs (lowerNormalize sufs s) = lowerNormalize sufs s := by
  have hgood0 := pyWordsAux_sound
    (fun c => isWordChar c = true ∧ Char.toLower c = c)
    (subPunct (pyStrip (pyLower s))).data [] (norm_chars s) (by simp)
  have hgood : ∀ w ∈ stripTrailingSuffixWords sufs (pyWords (subPunct (pyStrip (pyLower s)))),
      w.data ≠ [] ∧ ∀ c ∈ w.data,
        c.isWhitespace = false ∧ (isWordChar c = true ∧ Char.toLower c = c) :=
    fun w hw => hgood0 w (stripTrail_subset _ _ w hw)
  unfold lowerNormalize
  rw [pyLower_joinWords _ (fun w hw c hc => ((hgood w hw).2 c hc).2.2)]
  rw [pyStrip_joinWords _ (fun w hw => ⟨(hgood w hw).1,
    fun c hc => ((hgood w hw).2 c hc).1⟩)]
  rw [subPunct_joinWords _ (fun w hw c hc => ((hgood w hw).2 c hc).2.1)]
  rw [pyWords_joinWords _ (fun w hw => ⟨(hgood w hw).1,
    fun c hc => ((hgood w hw).2 c hc).1⟩)]
  rw [stripTrail_idem]

lemma osClean_eq_lowerNormalize (s : String) :
    osCleanCompanyName s = lowerNormalize osSuffixes s := rfl

lemma euClean_eq_lowerNormalize (s : String) :
    euCleanCompanyName s = lowerNormalize euSuffixes s := by
  unfold euCleanCompanyName lowerNormalize
  have hgood := pyWordsAux_sound (fun _ => True)
    (subPunct (pyStrip (pyLower s))).data [] (fun _ _ _ => trivial) (by simp)
  have hfilter : (pyWords (subPunct (pyStrip (pyLower s)))).filter (fun w => w ≠ "")
      = pyWords (subPunct (pyStrip (pyLower s))) := by
    rw [List.filter_eq_self]
    intro w hw
    have := (hgood w hw).1
    rw [string_data_ne_nil_iff] at this
    simpa using this
  rw [hfilter]

/-- Claim C8 counterexample: the OFAC normalizer is not idempotent — its
suffix loop tries each suffix once, so `"A CO CO"` normalizes to `"A CO"`,
which normalizes again to `"A"`. -/
theorem ofacClean_not_idempotent :
    ofacCleanCompanyName (ofacCleanCompanyName "A CO CO")
      ≠ ofacCleanCompanyName "A CO CO" ∧
    ofacCleanCompanyName "A CO CO" = "A CO" ∧
    ofacCleanCompanyName "A CO" = "A" := by
  refine ⟨by decide, by decide, by decide⟩

/-- Claim C8 (amended): the EU and OpenSanctions normalizers are idempotent
(`normalize(normalize(s)) = normalize(s)` for every string); the OFAC
variant is not, refuted by `"A CO CO"` above. -/
theorem eu_os_clean_idempotent :
    ∀ s : String,
      euCleanCompanyName (euCleanCompanyName s) = euCleanCompanyName s ∧
      osCleanCompanyName (osCleanCompanyName s) = osCleanCompanyName s := by
  intro s
  constructor
  · rw [euClean_eq_lowerNormalize, euClean_eq_lowerNormalize, lowerNormalize_idem]
  · rw [osClean_eq_lowerNormalize, osClean_eq_lowerNormalize, lowerNormalize_idem]

end BIRisk
